import Mathlib

/-!
Shallow embedding of the Pomodoro tracker component (src/unnamed/part_000).
State held in React useState hooks is modelled as explicit values passed to
and returned from the event handlers; JS numbers holding integer values are
modelled as Int, JS strings as String, nullable strings as Option String.
-/

/-- Mirrors interface TodoItem (part_000 lines 4-10). -/
structure TodoItem where
  id : String
  title : String
  estimatedPomodoros : Int
  completedPomodoros : Int
  isCompleted : Bool
deriving DecidableEq, Repr

/-- Mirrors interface PomodoroTimer (part_000 lines 12-18); this is the
spec's Session: remaining = (minutes, seconds), isRunning = isActive,
kind = isBreak (Break when true), activeTaskId = currentTaskId. -/
structure PomodoroTimer where
  minutes : Int
  seconds : Int
  isActive : Bool
  isBreak : Bool
  currentTaskId : Option String
deriving DecidableEq, Repr

/-- Mirrors interface Settings (part_000 lines 20-26). -/
structure Settings where
  workDuration : Int
  breakDuration : Int
  notificationsEnabled : Bool
  musicEnabled : Bool
  musicVolume : Float

/-- Mirrors interface YouTubeTrack (part_000 lines 28-33). -/
structure YouTubeTrack where
  id : String
  title : String
  videoId : String
  url : String
deriving DecidableEq, Repr

/-- JS truthiness of a string-or-null value: null and the empty string are
falsy, every other string is truthy. -/
def optTruthy : Option String → Bool
  | none => false
  | some s => s != ""

/-- Result of one firing of the setInterval callback (part_000 lines
275-310): the new todos list (the setTodos call), the new timer (the value
returned to setTimer), and the showNotification calls it issues, in order
(showNotification itself further gates on the notifications setting and
browser permission; the calls are what the tick logic fires). -/
structure TickResult where
  todos : List TodoItem
  timer : PomodoroTimer
  notifs : List (String × String)
deriving Repr

/-- The tick body (part_000 lines 276-309): seconds > 0 decrements seconds;
otherwise minutes > 0 borrows a minute and sets seconds to 59; otherwise the
timer finished: a focus session with a truthy currentTaskId increments that
todo's completedPomodoros and fires one notification, a break fires one
notification; then isBreak flips, minutes is reloaded from settings for the
new kind, seconds is set to 0 and isActive to false. -/
def tick (settings : Settings) (todos : List TodoItem) (prevTimer : PomodoroTimer) :
    TickResult :=
  if 0 < prevTimer.seconds then
    { todos := todos
      timer := { prevTimer with seconds := prevTimer.seconds - 1 }
      notifs := [] }
  else if 0 < prevTimer.minutes then
    { todos := todos
      timer := { prevTimer with minutes := prevTimer.minutes - 1, seconds := 59 }
      notifs := [] }
  else
    let finished :=
      if !prevTimer.isBreak && optTruthy prevTimer.currentTaskId then
        (todos.map fun todo =>
          if some todo.id = prevTimer.currentTaskId then
            { todo with completedPomodoros := todo.completedPomodoros + 1 }
          else todo,
         [("Pomodoro Complete!", "Great work! Time for a break.")])
      else if prevTimer.isBreak then
        (todos, [("Break Over!", "Ready to get back to work?")])
      else
        (todos, [])
    let newIsBreak := !prevTimer.isBreak
    let newMinutes := if newIsBreak then settings.breakDuration else settings.workDuration
    { todos := finished.1
      timer := { prevTimer with
                   minutes := newMinutes
                   seconds := 0
                   isActive := false
                   isBreak := newIsBreak }
      notifs := finished.2 }

/-- One interval firing viewed as a transition on the (todos, timer) pair. -/
def tickStep (settings : Settings) (s : List TodoItem × PomodoroTimer) :
    List TodoItem × PomodoroTimer :=
  ((tick settings s.1 s.2).todos, (tick settings s.1 s.2).timer)

/-- n consecutive interval firings. -/
def tickN (settings : Settings) : Nat → List TodoItem × PomodoroTimer →
    List TodoItem × PomodoroTimer
  | 0, s => s
  | n + 1, s => tickN settings n (tickStep settings s)

theorem tickN_add (settings : Settings) (a b : Nat) (s : List TodoItem × PomodoroTimer) :
    tickN settings (a + b) s = tickN settings b (tickN settings a s) := by
  induction a generalizing s with
  | zero => simp [tickN]
  | succ a ih =>
    have h : a + 1 + b = (a + b) + 1 := by omega
    rw [h]
    show tickN settings (a + b) (tickStep settings s) = _
    rw [ih]
    rfl

theorem tick_timer_nonneg (settings : Settings) (todos : List TodoItem)
    (tm : PomodoroTimer)
    (hw : 0 ≤ settings.workDuration) (hb : 0 ≤ settings.breakDuration)
    (hm : 0 ≤ tm.minutes) (hs : 0 ≤ tm.seconds) :
    0 ≤ (tick settings todos tm).timer.minutes ∧
      0 ≤ (tick settings todos tm).timer.seconds := by
  unfold tick
  by_cases h1 : 0 < tm.seconds
  · simp [h1]
    omega
  · by_cases h2 : 0 < tm.minutes
    · simp [h1, h2]
      omega
    · simp [h1, h2]
      by_cases hbk : tm.isBreak <;> simp [hbk, hw, hb]

theorem tickN_timer_nonneg (settings : Settings) (n : Nat)
    (todos : List TodoItem) (tm : PomodoroTimer)
    (hw : 0 ≤ settings.workDuration) (hb : 0 ≤ settings.breakDuration)
    (hm : 0 ≤ tm.minutes) (hs : 0 ≤ tm.seconds) :
    0 ≤ (tickN settings n (todos, tm)).2.minutes ∧
      0 ≤ (tickN settings n (todos, tm)).2.seconds := by
  induction n generalizing todos tm with
  | zero => exact ⟨hm, hs⟩
  | succ n ih =>
    have hstep := tick_timer_nonneg settings todos tm hw hb hm hs
    show (0 ≤ (tickN settings n (tickStep settings (todos, tm))).2.minutes ∧ _)
    exact ih (tick settings todos tm).todos (tick settings todos tm).timer
      hstep.1 hstep.2

/-- switchMode (part_000 lines 472-483): flips isBreak, reloads minutes from
the new kind's configured duration, zeroes seconds, forces isActive false,
and clears currentTaskId when switching into break. -/
def switchMode (settings : Settings) (timer : PomodoroTimer) : PomodoroTimer :=
  let newIsBreak := !timer.isBreak
  let newMinutes := if newIsBreak then settings.breakDuration else settings.workDuration
  { minutes := newMinutes
    seconds := 0
    isActive := false
    isBreak := newIsBreak
    currentTaskId := if newIsBreak then none else timer.currentTaskId }

/-- The switch-mode button (part_000 lines 714-727) is rendered with
disabled set to timer.isActive; a disabled button fires no click events, so
the user-invocable switch-mode operation runs switchMode only when the timer
is not active and otherwise leaves the state untouched. -/
def switchModeClick (settings : Settings) (timer : PomodoroTimer) : PomodoroTimer :=
  if timer.isActive then timer else switchMode settings timer

/-- deleteTodo (part_000 lines 333-338): filters the todo out of the list;
when the deleted id is the timer's current task, clears currentTaskId and
forces isActive false, otherwise leaves the timer untouched. -/
def deleteTodo (todos : List TodoItem) (timer : PomodoroTimer) (id : String) :
    List TodoItem × PomodoroTimer :=
  let newTodos := todos.filter fun todo => todo.id != id
  let newTimer :=
    if timer.currentTaskId = some id then
      { timer with currentTaskId := none, isActive := false }
    else timer
  (newTodos, newTimer)

/-- The savedTimer branch of the load effect (part_000 lines 191-198):
setTimer (prev => ({ ...prev, ...parsedTimer, isActive: false })).  A
persisted snapshot is a full serialized PomodoroTimer, so every field of
prev is overwritten by the snapshot and isActive is then forced to false. -/
def loadTimer (_prev parsedTimer : PomodoroTimer) : PomodoroTimer :=
  { minutes := parsedTimer.minutes
    seconds := parsedTimer.seconds
    isActive := false
    isBreak := parsedTimer.isBreak
    currentTaskId := parsedTimer.currentTaskId }

/-- Claim C1: from any reachable timer state (nonnegative remaining time,
nonnegative configured durations), every sequence of tick invocations keeps
Session.remaining nonnegative; a tick with seconds > 0 decrements only
seconds; a tick with seconds = 0 and minutes > 0 borrows one minute and sets
seconds to 59; and the kind flips exactly on the tick taken with
minutes = 0 and seconds = 0. -/
theorem claim_C1_tick_remaining_nonneg_flip_boundary
    (settings : Settings) (todos : List TodoItem) (tm : PomodoroTimer) (n : Nat)
    (hw : 0 ≤ settings.workDuration) (hb : 0 ≤ settings.breakDuration)
    (hm : 0 ≤ tm.minutes) (hs : 0 ≤ tm.seconds) :
    (0 ≤ (tickN settings n (todos, tm)).2.minutes ∧
       0 ≤ (tickN settings n (todos, tm)).2.seconds) ∧
    (0 < tm.seconds →
       (tick settings todos tm).timer = { tm with seconds := tm.seconds - 1 } ∧
       (tick settings todos tm).todos = todos) ∧
    (tm.seconds = 0 → 0 < tm.minutes →
       (tick settings todos tm).timer =
         { tm with minutes := tm.minutes - 1, seconds := 59 } ∧
       (tick settings todos tm).todos = todos) ∧
    ((tick settings todos tm).timer.isBreak ≠ tm.isBreak ↔
       tm.minutes = 0 ∧ tm.seconds = 0) := by
  refine ⟨tickN_timer_nonneg settings n todos tm hw hb hm hs, ?_, ?_, ?_⟩
  · intro h
    unfold tick
    simp [h]
  · intro h1 h2
    have hns : ¬ 0 < tm.seconds := by omega
    unfold tick
    simp [hns, h2]
  · constructor
    · intro hne
      by_cases h1 : 0 < tm.seconds
      · exact absurd (by unfold tick; simp [h1]) hne
      · by_cases h2 : 0 < tm.minutes
        · exact absurd (by unfold tick; simp [h1, h2]) hne
        · omega
    · rintro ⟨hm0, hs0⟩
      have hns : ¬ 0 < tm.seconds := by omega
      have hnm : ¬ 0 < tm.minutes := by omega
      unfold tick
      simp [hns, hnm]

/-- Shared concrete sample values for witness instantiations. -/
def sampleSettings : Settings :=
  { workDuration := 25
    breakDuration := 5
    notificationsEnabled := true
    musicEnabled := false
    musicVolume := 0.5 }

def sampleTimer : PomodoroTimer :=
  { minutes := 0
    seconds := 2
    isActive := true
    isBreak := false
    currentTaskId := none }

theorem claim_C1_tick_remaining_nonneg_flip_boundary_witness :
    (0 ≤ sampleSettings.workDuration ∧ 0 ≤ sampleSettings.breakDuration ∧
       0 ≤ sampleTimer.minutes ∧ 0 ≤ sampleTimer.seconds) ∧
    ((0 ≤ (tickN sampleSettings 3 ([], sampleTimer)).2.minutes ∧
        0 ≤ (tickN sampleSettings 3 ([], sampleTimer)).2.seconds) ∧
     (0 < sampleTimer.seconds →
        (tick sampleSettings [] sampleTimer).timer =
          { sampleTimer with seconds := sampleTimer.seconds - 1 } ∧
        (tick sampleSettings [] sampleTimer).todos = []) ∧
     (sampleTimer.seconds = 0 → 0 < sampleTimer.minutes →
        (tick sampleSettings [] sampleTimer).timer =
          { sampleTimer with minutes := sampleTimer.minutes - 1, seconds := 59 } ∧
        (tick sampleSettings [] sampleTimer).todos = []) ∧
     ((tick sampleSettings [] sampleTimer).timer.isBreak ≠ sampleTimer.isBreak ↔
        sampleTimer.minutes = 0 ∧ sampleTimer.seconds = 0)) :=
  ⟨⟨by decide, by decide, by decide, by decide⟩,
   claim_C1_tick_remaining_nonneg_flip_boundary sampleSettings [] sampleTimer 3
     (by decide) (by decide) (by decide) (by decide)⟩

/-- Claim C3: the user-invocable mode switch is a no-op while the timer is
running: the button is disabled, so with isActive = true the whole Session
state is unchanged. -/
theorem claim_C3_switchMode_noop_while_running
    (settings : Settings) (timer : PomodoroTimer) (h : timer.isActive = true) :
    switchModeClick settings timer = timer := by
  unfold switchModeClick
  simp [h]

theorem claim_C3_switchMode_noop_while_running_witness :
    sampleTimer.isActive = true ∧ switchModeClick sampleSettings sampleTimer = sampleTimer :=
  ⟨by decide, claim_C3_switchMode_noop_while_running sampleSettings sampleTimer (by decide)⟩

/-- Claim C4: deleting the task referenced by currentTaskId removes every
todo with that id from the registry, clears currentTaskId and forces
isActive false while leaving the remaining time and kind untouched;
deleting any other id leaves the timer entirely unchanged. -/
theorem claim_C4_delete_active_task_clears_reference
    (todos : List TodoItem) (timer : PomodoroTimer) (id : String) :
    ((deleteTodo todos timer id).1 = todos.filter (fun todo => todo.id != id) ∧
       ∀ t ∈ (deleteTodo todos timer id).1, t.id ≠ id) ∧
    (timer.currentTaskId = some id →
       (deleteTodo todos timer id).2.currentTaskId = none ∧
       (deleteTodo todos timer id).2.isActive = false ∧
       (deleteTodo todos timer id).2.minutes = timer.minutes ∧
       (deleteTodo todos timer id).2.seconds = timer.seconds ∧
       (deleteTodo todos timer id).2.isBreak = timer.isBreak) ∧
    (timer.currentTaskId ≠ some id →
       (deleteTodo todos timer id).2 = timer) := by
  refine ⟨⟨rfl, ?_⟩, ?_, ?_⟩
  · intro t ht
    have := List.of_mem_filter ht
    simpa using this
  · intro h
    unfold deleteTodo
    simp [h]
  · intro h
    unfold deleteTodo
    simp [h]

theorem claim_C4_delete_active_task_clears_reference_witness :
    ({ sampleTimer with currentTaskId := some ("a") }.currentTaskId = some ("a")) ∧
    ((deleteTodo [] { sampleTimer with currentTaskId := some ("a") } ("a")).2.currentTaskId
        = none ∧
      (deleteTodo [] { sampleTimer with currentTaskId := some ("a") } ("a")).2.isActive
        = false ∧
      (deleteTodo [] { sampleTimer with currentTaskId := some ("a") } ("a")).2.minutes
        = sampleTimer.minutes ∧
      (deleteTodo [] { sampleTimer with currentTaskId := some ("a") } ("a")).2.seconds
        = sampleTimer.seconds ∧
      (deleteTodo [] { sampleTimer with currentTaskId := some ("a") } ("a")).2.isBreak
        = sampleTimer.isBreak) :=
  ⟨by decide,
   (claim_C4_delete_active_task_clears_reference []
       { sampleTimer with currentTaskId := some ("a") } ("a")).2.1 (by decide)⟩

/-- Claim C6: reloading a persisted timer snapshot, even one saved with
isActive = true, yields isActive = false while all other snapshot fields are
restored. -/
theorem claim_C6_load_never_resumes (prev saved : PomodoroTimer) :
    (loadTimer prev saved).isActive = false ∧
    (loadTimer prev saved).minutes = saved.minutes ∧
    (loadTimer prev saved).seconds = saved.seconds ∧
    (loadTimer prev saved).isBreak = saved.isBreak ∧
    (loadTimer prev saved).currentTaskId = saved.currentTaskId :=
  ⟨rfl, rfl, rfl, rfl, rfl⟩

/-- A Partial (Settings) argument: each field either present or absent. -/
structure PartialSettings where
  workDuration : Option Int := none
  breakDuration : Option Int := none
  notificationsEnabled : Option Bool := none
  musicEnabled : Option Bool := none
  musicVolume : Option Float := none

/-- updateSettings (part_000 lines 414-423): merges the partial record over
the current settings; when the timer is not active it also rewrites
timer.minutes from the (possibly updated) duration for the current kind,
leaving every other timer field (seconds included) untouched; when the timer
is active the timer is not touched at all. -/
def updateSettings (newSettings : PartialSettings) (settings : Settings)
    (timer : PomodoroTimer) : Settings × PomodoroTimer :=
  let merged : Settings :=
    { workDuration := newSettings.workDuration.getD settings.workDuration
      breakDuration := newSettings.breakDuration.getD settings.breakDuration
      notificationsEnabled :=
        newSettings.notificationsEnabled.getD settings.notificationsEnabled
      musicEnabled := newSettings.musicEnabled.getD settings.musicEnabled
      musicVolume := newSettings.musicVolume.getD settings.musicVolume }
  let newTimer :=
    if !timer.isActive then
      { timer with minutes :=
          if timer.isBreak then newSettings.breakDuration.getD settings.breakDuration
          else newSettings.workDuration.getD settings.workDuration }
    else timer
  (merged, newTimer)

/-- A focus timer paused mid-minute, used to exhibit the C5 discrepancy. -/
def pausedFocusTimer : PomodoroTimer :=
  { minutes := 25
    seconds := 30
    isActive := false
    isBreak := false
    currentTaskId := none }

/-- Claim C5 as stated is false: updating workDuration to 10 while the timer
is paused (isActive = false, kind Focus) at remaining 25:30 yields remaining
10:30, not the new workDuration value 10:00 — the code rewrites only the
minutes component and keeps the stale seconds. -/
theorem claim_C5_counterexample :
    ¬ ((updateSettings { workDuration := some 10 } sampleSettings
          pausedFocusTimer).2.minutes = 10 ∧
       (updateSettings { workDuration := some 10 } sampleSettings
          pausedFocusTimer).2.seconds = 0) := by
  decide

/-- Claim C5 (amended): updating workDuration while isActive = false and
kind = Focus sets timer.minutes to the new workDuration and leaves seconds,
isActive, isBreak and currentTaskId unchanged (so remaining equals the new
duration exactly when seconds was already 0); while isActive = true the
timer is entirely unchanged. -/
theorem claim_C5_settings_update_rewrites_minutes_only
    (p : PartialSettings) (settings : Settings) (timer : PomodoroTimer) (w : Int)
    (hp : p.workDuration = some w) :
    (timer.isActive = false → timer.isBreak = false →
       (updateSettings p settings timer).2.minutes = w ∧
       (updateSettings p settings timer).2.seconds = timer.seconds ∧
       (updateSettings p settings timer).2.isActive = timer.isActive ∧
       (updateSettings p settings timer).2.isBreak = timer.isBreak ∧
       (updateSettings p settings timer).2.currentTaskId = timer.currentTaskId) ∧
    (timer.isActive = true → (updateSettings p settings timer).2 = timer) := by
  constructor
  · intro h1 h2
    unfold updateSettings
    simp [h1, h2, hp]
  · intro h1
    unfold updateSettings
    simp [h1]

theorem claim_C5_settings_update_rewrites_minutes_only_witness :
    ({ workDuration := some 10 : PartialSettings }).workDuration = some 10 ∧
    ((updateSettings { workDuration := some 10 } sampleSettings
        pausedFocusTimer).2.minutes = 10 ∧
     (updateSettings { workDuration := some 10 } sampleSettings
        pausedFocusTimer).2.seconds = pausedFocusTimer.seconds ∧
     (updateSettings { workDuration := some 10 } sampleSettings
        pausedFocusTimer).2.isActive = pausedFocusTimer.isActive ∧
     (updateSettings { workDuration := some 10 } sampleSettings
        pausedFocusTimer).2.isBreak = pausedFocusTimer.isBreak ∧
     (updateSettings { workDuration := some 10 } sampleSettings
        pausedFocusTimer).2.currentTaskId = pausedFocusTimer.currentTaskId) :=
  ⟨rfl,
   (claim_C5_settings_update_rewrites_minutes_only { workDuration := some 10 }
       sampleSettings pausedFocusTimer 10 rfl).1 rfl rfl⟩

/-- removeTrack (part_000 lines 158-165): filters the track out of the
playlist; the index update reads the pre-removal playlist length and
current index (the stale closure values): length ≤ 1 resets the index to 0,
as does an index at or past length - 1; otherwise it is kept. -/
def removeTrack (playlist : List YouTubeTrack) (currentTrack : Nat)
    (trackId : String) : List YouTubeTrack × Nat :=
  let newPlaylist := playlist.filter fun track => track.id != trackId
  let newCurrent :=
    if playlist.length ≤ 1 then 0
    else if playlist.length - 1 ≤ currentTrack then 0
    else currentTrack
  (newPlaylist, newCurrent)

/-- Claim C8: removing the only track of a 1-track playlist empties the
playlist and resets currentIndex to 0, whatever its prior value. -/
theorem claim_C8_removeTrack_singleton_empties_and_resets
    (tr : YouTubeTrack) (cur : Nat) :
    removeTrack [tr] cur tr.id = ([], 0) := by
  unfold removeTrack
  simp

/-- nextTrack (part_000 lines 448-458), restricted to its effect on
currentTrack: a no-op on an empty playlist, otherwise (i + 1) mod n.  The
player load / delayed play calls go to the external widget. -/
def nextTrack (playlist : List YouTubeTrack) (currentTrack : Nat) : Nat :=
  if playlist.length = 0 then currentTrack
  else (currentTrack + 1) % playlist.length

/-- previousTrack (part_000 lines 460-470), restricted to its effect on
currentTrack: a no-op on an empty playlist, otherwise n - 1 when the index
is 0 and i - 1 otherwise. -/
def previousTrack (playlist : List YouTubeTrack) (currentTrack : Nat) : Nat :=
  if playlist.length = 0 then currentTrack
  else if currentTrack = 0 then playlist.length - 1
  else currentTrack - 1

/-- Claim C10: for an in-range index on a non-empty playlist, advancing and
then retreating returns the index to its original value; on an empty
playlist both moves leave the index unchanged. -/
theorem claim_C10_advance_retreat_roundtrip
    (playlist : List YouTubeTrack) (i : Nat) (h : i < playlist.length) :
    previousTrack playlist (nextTrack playlist i) = i ∧
    nextTrack ([] : List YouTubeTrack) i = i ∧
    previousTrack ([] : List YouTubeTrack) i = i := by
  refine ⟨?_, rfl, rfl⟩
  unfold nextTrack previousTrack
  have hn : ¬ playlist.length = 0 := by omega
  simp only [hn, if_false]
  rcases Nat.lt_or_ge (i + 1) playlist.length with hlt | hge
  · rw [Nat.mod_eq_of_lt hlt]
    simp only [Nat.succ_ne_zero, if_false]
    omega
  · have heq : i + 1 = playlist.length := by omega
    rw [heq, Nat.mod_self]
    simp only [if_true]
    omega

/-- Shared concrete sample track for witness instantiations. -/
def sampleTrack : YouTubeTrack :=
  { id := "1"
    title := "Track"
    videoId := "abc123"
    url := "https://youtu.be/abc123" }

theorem claim_C10_advance_retreat_roundtrip_witness :
    0 < [sampleTrack].length ∧
    (previousTrack [sampleTrack] (nextTrack [sampleTrack] 0) = 0 ∧
     nextTrack ([] : List YouTubeTrack) 0 = 0 ∧
     previousTrack ([] : List YouTubeTrack) 0 = 0) :=
  ⟨by decide, claim_C10_advance_retreat_roundtrip [sampleTrack] 0 (by decide)⟩

/-- The JS whitespace characters String.prototype.trim strips that can
occur in this app's inputs: space, tab, line feed, carriage return,
vertical tab and form feed. -/
def jsWhitespace (c : Char) : Bool :=
  c = ' ' || c = '\t' || c = '\n' || c = '\r' || c = '\x0b' || c = '\x0c'

/-- Model of String.prototype.trim: strips leading and trailing whitespace. -/
def jsTrim (s : String) : String :=
  String.mk (((s.data.dropWhile jsWhitespace).reverse.dropWhile jsWhitespace).reverse)

/-- addTodo (part_000 lines 318-331): guarded by the truthiness of the
trimmed title (a nonempty string); when it passes, appends a todo carrying
the trimmed title, the entered estimate, completedPomodoros 0 and
isCompleted false; otherwise nothing happens.  The fresh Date.now() id is
passed in as freshId. -/
def addTodo (newTodoTitle : String) (newTodoPomodoros : Int) (freshId : String)
    (todos : List TodoItem) : List TodoItem :=
  if jsTrim newTodoTitle ≠ "" then
    todos ++ [{ id := freshId
                title := jsTrim newTodoTitle
                estimatedPomodoros := newTodoPomodoros
                completedPomodoros := 0
                isCompleted := false }]
  else todos

/-- Claim C9: a title that is empty or whitespace after trimming makes
create a silent no-op (the registry is unchanged, and the total function
returns normally, so no error propagates); a title with content appends one
task with the trimmed title, completedPomodoros 0 and isCompleted false. -/
theorem claim_C9_addTodo_blank_title_noop
    (title : String) (est : Int) (freshId : String) (todos : List TodoItem) :
    (jsTrim title = "" → addTodo title est freshId todos = todos) ∧
    (jsTrim title ≠ "" →
       addTodo title est freshId todos =
         todos ++ [{ id := freshId
                     title := jsTrim title
                     estimatedPomodoros := est
                     completedPomodoros := 0
                     isCompleted := false }]) := by
  constructor <;> intro h <;> unfold addTodo <;> simp [h]

theorem claim_C9_addTodo_blank_title_noop_witness :
    jsTrim ("  \t ") = "" ∧ addTodo ("  \t ") 1 ("id1") [] = [] ∧
    jsTrim (" focus ") ≠ "" ∧
    addTodo (" focus ") 2 ("id2") [] =
      [] ++ [{ id := "id2"
               title := jsTrim (" focus ")
               estimatedPomodoros := 2
               completedPomodoros := 0
               isCompleted := false }] :=
  ⟨by decide,
   (claim_C9_addTodo_blank_title_noop ("  \t ") 1 ("id1") []).1 (by decide),
   by decide,
   (claim_C9_addTodo_blank_title_noop (" focus ") 2 ("id2") []).2 (by decide)⟩

/-- The character class [^&\n?#] of the extractVideoId patterns: the capture
stops at an ampersand, newline, question mark or hash. -/
def stopChar (c : Char) : Bool :=
  c = '&' || c = '\n' || c = '?' || c = '#'

/-- Whether the first list is an initial segment of the second. -/
def charsLead : List Char → List Char → Bool
  | [], _ => true
  | _ :: _, [] => false
  | a :: as, b :: bs => (a == b) && charsLead as bs

/-- At one scan position, try the literal alternatives of a pattern in
order: the alternative must match here and be followed by at least one
character outside the stop class; the capture is the maximal run of such
characters (nothing follows the capture group in the source patterns, so no
further backtracking can occur). -/
def tryAlts : List (List Char) → List Char → Option (List Char)
  | [], _ => none
  | p :: ps, s =>
    if charsLead p s then
      let cap := (s.drop p.length).takeWhile fun c => !(stopChar c)
      if cap.isEmpty then tryAlts ps s else some cap
    else tryAlts ps s

/-- JS RegExp.prototype-style unanchored search: scan positions left to
right and return the first successful capture. -/
def scanFirst (alts : List (List Char)) : List Char → Option (List Char)
  | [] => tryAlts alts []
  | c :: rest =>
    match tryAlts alts (c :: rest) with
    | some cap => some cap
    | none => scanFirst alts rest

/-- extractVideoId (part_000 lines 73-85): tries the three source regexes in
order — (youtube.com/watch?v= | youtu.be/)([^&\n?#]+), then
youtube.com/embed/([^&\n?#]+), then youtube.com/v/([^&\n?#]+) — and returns
the first capture, or none when no pattern matches. -/
def extractVideoId (url : String) : Option String :=
  let s := url.data
  match scanFirst [("youtube.com/watch?v=").data, ("youtu.be/").data] s with
  | some cap => some (String.mk cap)
  | none =>
    match scanFirst [("youtube.com/embed/").data] s with
    | some cap => some (String.mk cap)
    | none =>
      match scanFirst [("youtube.com/v/").data] s with
      | some cap => some (String.mk cap)
      | none => none

/-- addYouTubeTrack (part_000 lines 136-155): a blank URL is ignored; a URL
with no extractable video id is rejected with an alert and leaves the
playlist (and the input field) unchanged; otherwise a track with the
extracted videoId and a placeholder title is appended and the input field is
cleared.  The fresh Date.now() id is passed in as freshId; the returned pair
is (playlist, url input field). -/
def addYouTubeTrack (newYoutubeUrl : String) (freshId : String)
    (playlist : List YouTubeTrack) : List YouTubeTrack × String :=
  if jsTrim newYoutubeUrl = "" then (playlist, newYoutubeUrl)
  else
    match extractVideoId newYoutubeUrl with
    | none => (playlist, newYoutubeUrl)
    | some videoId =>
      (playlist ++ [{ id := freshId
                      title := "YouTube Video " ++ videoId
                      videoId := videoId
                      url := newYoutubeUrl }], "")

/-- Claim C7: the three supported URL shapes all extract the id abc123 and
addTrack appends a track carrying that videoId; an unparseable URL extracts
nothing, is rejected, and leaves the playlist unchanged. -/
theorem claim_C7_addTrack_url_shapes
    (playlist : List YouTubeTrack) (id1 id2 id3 id4 : String) :
    extractVideoId ("https://youtu.be/abc123") = some ("abc123") ∧
    extractVideoId ("https://www.youtube.com/watch?v=abc123&t=5") = some ("abc123") ∧
    extractVideoId ("https://www.youtube.com/embed/abc123") = some ("abc123") ∧
    extractVideoId ("https://example.com") = none ∧
    (addYouTubeTrack ("https://youtu.be/abc123") id1 playlist).1 =
      playlist ++ [{ id := id1
                     title := "YouTube Video abc123"
                     videoId := "abc123"
                     url := "https://youtu.be/abc123" }] ∧
    (addYouTubeTrack ("https://www.youtube.com/watch?v=abc123&t=5") id2 playlist).1 =
      playlist ++ [{ id := id2
                     title := "YouTube Video abc123"
                     videoId := "abc123"
                     url := "https://www.youtube.com/watch?v=abc123&t=5" }] ∧
    (addYouTubeTrack ("https://www.youtube.com/embed/abc123") id3 playlist).1 =
      playlist ++ [{ id := id3
                     title := "YouTube Video abc123"
                     videoId := "abc123"
                     url := "https://www.youtube.com/embed/abc123" }] ∧
    (addYouTubeTrack ("https://example.com") id4 playlist).1 = playlist :=
  ⟨by decide, by decide, by decide, by decide, rfl, rfl, rfl, rfl⟩

/-- startPomodoroForTask (part_000 lines 390-398): a fresh focus session
for the given task at the configured work duration, running. -/
def startPomodoroForTask (settings : Settings) (taskId : String) : PomodoroTimer :=
  { minutes := settings.workDuration
    seconds := 0
    isActive := true
    isBreak := false
    currentTaskId := some taskId }

/-- Total completedPomodoros over the registry. -/
def totalCompleted (todos : List TodoItem) : Int :=
  (todos.map fun todo => todo.completedPomodoros).sum

theorem totalCompleted_inc_matching (todos : List TodoItem) (taskId : String) :
    totalCompleted (todos.map fun todo =>
      if todo.id = taskId then
        { todo with completedPomodoros := todo.completedPomodoros + 1 }
      else todo) =
    totalCompleted todos + ((todos.countP fun todo => todo.id == taskId : Nat) : Int) := by
  induction todos with
  | nil => simp [totalCompleted]
  | cons t rest ih =>
    by_cases h : t.id = taskId <;>
      simp [totalCompleted, List.countP_cons, h] at ih ⊢ <;>
      push_cast <;> omega

theorem tickN_seconds_countdown (settings : Settings) (s : Nat) :
    ∀ (todos : List TodoItem) (tm : PomodoroTimer), tm.seconds = (s : Int) →
      tickN settings s (todos, tm) = (todos, { tm with seconds := 0 }) := by
  induction s with
  | zero =>
    intro todos tm h
    show (todos, tm) = _
    cases tm
    simp_all
  | succ s ih =>
    intro todos tm h
    have hpos : 0 < tm.seconds := by omega
    show tickN settings s (tickStep settings (todos, tm)) = _
    have hstep : tickStep settings (todos, tm) =
        (todos, { tm with seconds := tm.seconds - 1 }) := by
      unfold tickStep tick
      simp [hpos]
    rw [hstep]
    have h2 : ({ tm with seconds := tm.seconds - 1 } : PomodoroTimer).seconds
        = (s : Int) := by
      simp
      omega
    rw [ih todos _ h2]

theorem tickN_minutes_countdown (settings : Settings) (m : Nat) :
    ∀ (todos : List TodoItem) (tm : PomodoroTimer),
      tm.seconds = 0 → tm.minutes = (m : Int) →
      tickN settings (60 * m) (todos, tm) =
        (todos, { tm with minutes := 0, seconds := 0 }) := by
  induction m with
  | zero =>
    intro todos tm hs0 hm0
    show (todos, tm) = _
    cases tm
    simp_all
  | succ m ih =>
    intro todos tm hs0 hm
    have hpos : ¬ 0 < tm.seconds := by omega
    have hmpos : 0 < tm.minutes := by omega
    have hcount : 60 * (m + 1) = 1 + (59 + 60 * m) := by omega
    rw [hcount, tickN_add settings 1 (59 + 60 * m)]
    have h1 : tickN settings 1 (todos, tm) =
        (todos, { tm with minutes := tm.minutes - 1, seconds := 59 }) := by
      show tickStep settings (todos, tm) = _
      unfold tickStep tick
      simp [hpos, hmpos]
    rw [h1, tickN_add settings 59 (60 * m)]
    rw [tickN_seconds_countdown settings 59 todos _ (by norm_num)]
    show tickN settings (60 * m)
        (todos, { tm with minutes := tm.minutes - 1, seconds := 0 }) = _
    have hmin : ({ tm with minutes := tm.minutes - 1, seconds := (0:Int) } :
        PomodoroTimer).minutes = (m : Int) := by
      simp
      omega
    rw [ih todos { tm with minutes := tm.minutes - 1, seconds := 0 } rfl hmin]

theorem tick_boundary_focus (settings : Settings) (todos : List TodoItem)
    (tm : PomodoroTimer) (taskId : String)
    (hs0 : tm.seconds = 0) (hm0 : tm.minutes = 0) (hbk : tm.isBreak = false)
    (htid : tm.currentTaskId = some taskId) (hne : taskId ≠ "") :
    tick settings todos tm =
      { todos := todos.map fun todo =>
          if todo.id = taskId then
            { todo with completedPomodoros := todo.completedPomodoros + 1 }
          else todo
        timer := { tm with minutes := settings.breakDuration, seconds := 0
                           isActive := false, isBreak := true }
        notifs := [("Pomodoro Complete!", "Great work! Time for a break.")] } := by
  have h1 : ¬ 0 < tm.seconds := by omega
  have h2 : ¬ 0 < tm.minutes := by omega
  unfold tick
  simp [h1, h2, hbk, htid, optTruthy, hne]

/-- Claim C2: starting a focus session for a task and ticking through its
full configured duration (60 * workDuration countdown ticks plus the
boundary tick) increments exactly the todos carrying the active task id —
by exactly 1 in total when the registry has exactly one such todo — and
leaves every other todo unchanged; any tick taken with no truthy active
task leaves the registry unchanged; and any single tick fires at most one
notification even though minutes and seconds reach zero together. -/
theorem claim_C2_focus_completion_increments_once
    (settings : Settings) (todos : List TodoItem) (taskId : String) (w : Nat)
    (hw : settings.workDuration = (w : Int)) (hwpos : 0 < w) (hne : taskId ≠ "")
    (hcount : (todos.countP fun todo => todo.id == taskId) = 1) :
    (tickN settings (60 * w + 1) (todos, startPomodoroForTask settings taskId)).1 =
      todos.map (fun todo =>
        if todo.id = taskId then
          { todo with completedPomodoros := todo.completedPomodoros + 1 }
        else todo) ∧
    totalCompleted
        (tickN settings (60 * w + 1) (todos, startPomodoroForTask settings taskId)).1 =
      totalCompleted todos + 1 ∧
    (∀ (todos2 : List TodoItem) (tm : PomodoroTimer),
       optTruthy tm.currentTaskId = false →
       (tick settings todos2 tm).todos = todos2) ∧
    (∀ (todos2 : List TodoItem) (tm : PomodoroTimer),
       (tick settings todos2 tm).notifs.length ≤ 1) := by
  have hrun : tickN settings (60 * w + 1) (todos, startPomodoroForTask settings taskId) =
      (todos.map (fun todo =>
        if todo.id = taskId then
          { todo with completedPomodoros := todo.completedPomodoros + 1 }
        else todo),
       { minutes := settings.breakDuration, seconds := 0, isActive := false
         isBreak := true, currentTaskId := some taskId }) := by
    rw [tickN_add settings (60 * w) 1]
    rw [tickN_minutes_countdown settings w todos (startPomodoroForTask settings taskId)
          rfl (by simp [startPomodoroForTask, hw])]
    show tickStep settings _ = _
    unfold tickStep
    rw [tick_boundary_focus settings todos
          { startPomodoroForTask settings taskId with minutes := 0, seconds := 0 }
          taskId rfl rfl rfl rfl hne]
    exact rfl
  refine ⟨?_, ?_, ?_, ?_⟩
  · rw [hrun]
  · rw [hrun]
    show totalCompleted (todos.map _) = _
    rw [totalCompleted_inc_matching todos taskId, hcount]
    norm_num
  · intro todos2 tm h
    unfold tick
    by_cases h1 : 0 < tm.seconds
    · simp [h1]
    · by_cases h2 : 0 < tm.minutes
      · simp [h1, h2]
      · by_cases hbk : tm.isBreak <;> simp [h1, h2, hbk, h]
  · intro todos2 tm
    unfold tick
    by_cases h1 : 0 < tm.seconds
    · simp [h1]
    · by_cases h2 : 0 < tm.minutes
      · simp [h1, h2]
      · by_cases hbk : tm.isBreak
        · simp [h1, h2, hbk]
        · by_cases htr : optTruthy tm.currentTaskId <;> simp [h1, h2, hbk, htr]

/-- Shared concrete sample registry and settings for the C2 witness. -/
def witSettings : Settings :=
  { workDuration := 1
    breakDuration := 5
    notificationsEnabled := true
    musicEnabled := false
    musicVolume := 0.5 }

def witTodos : List TodoItem :=
  [{ id := "t1"
     title := "Task"
     estimatedPomodoros := 1
     completedPomodoros := 0
     isCompleted := false }]

theorem claim_C2_focus_completion_increments_once_witness :
    witSettings.workDuration = ((1 : Nat) : Int) ∧ 0 < 1 ∧ ("t1" : String) ≠ "" ∧
    (witTodos.countP fun todo => todo.id == ("t1" : String)) = 1 ∧
    ((tickN witSettings (60 * 1 + 1) (witTodos, startPomodoroForTask witSettings ("t1"))).1 =
       witTodos.map (fun todo =>
         if todo.id = ("t1" : String) then
           { todo with completedPomodoros := todo.completedPomodoros + 1 }
         else todo) ∧
     totalCompleted
         (tickN witSettings (60 * 1 + 1)
           (witTodos, startPomodoroForTask witSettings ("t1"))).1 =
       totalCompleted witTodos + 1 ∧
     (∀ (todos2 : List TodoItem) (tm : PomodoroTimer),
        optTruthy tm.currentTaskId = false →
        (tick witSettings todos2 tm).todos = todos2) ∧
     (∀ (todos2 : List TodoItem) (tm : PomodoroTimer),
        (tick witSettings todos2 tm).notifs.length ≤ 1)) :=
  ⟨rfl, by decide, by decide, by decide,
   claim_C2_focus_completion_increments_once witSettings witTodos ("t1") 1
     rfl (by decide) (by decide) (by decide)⟩
